import Mathlib

/-!
Shallow embedding of the streaming player `Esp32Sing`
(`main/boards/common/esp32_sing.cc` / `.h`) and proofs about its
bounded chunk queue, consumer pop loop, priming wait, stop path,
WAV demuxing/downmix, ID3 skip, HTTP status handling, open retry,
and empty-input guards.

Bytes are modelled as `Nat` (values `< 256` in honest inputs), machine
integers as `Nat`/`Int` with explicit wrapping where the C code can
overflow, and the blocking condition-variable waits as their predicates
plus explicit would-block outcomes.
-/

/-! ## Data model and operations, embedded from the source -/

/-- Buffer capacity ceiling, `Esp32Sing::MAX_BUFFER_SIZE` (128 KiB),
`esp32_sing.h` line 129. -/
def MAX_BUFFER_SIZE : Nat := 128 * 1024

/-- Priming threshold, `Esp32Sing::MIN_BUFFER_SIZE` (16 KiB),
`esp32_sing.h` line 130. -/
def MIN_BUFFER_SIZE : Nat := 16 * 1024

/-- An owned audio chunk (`SingAudioChunk`): its byte payload.  The C++
`size` field always equals the allocation length at push time, so here
`size` is derived from the data. -/
structure SingAudioChunk where
  data : List Nat
deriving DecidableEq

/-- Length of the chunk's payload (the C++ `size` field). -/
def SingAudioChunk.size (c : SingAudioChunk) : Nat := c.data.length

/-- The shared producer/consumer state: the FIFO `audio_buffer_`, the
tracked aggregate `buffer_size_`, and the two run flags
`is_downloading_` / `is_playing_`. -/
structure BufferState where
  audio_buffer : List SingAudioChunk
  buffer_size : Nat
  is_downloading : Bool
  is_playing : Bool
deriving DecidableEq

/-- The queue invariant claimed in the spec: the tracked aggregate byte
count equals the sum of the lengths of the resident chunks. -/
def bufferInvariant (s : BufferState) : Prop :=
  s.buffer_size = (s.audio_buffer.map SingAudioChunk.size).sum

instance (s : BufferState) : Decidable (bufferInvariant s) := by
  unfold bufferInvariant; infer_instance

/-- Producer push after the capacity wait, `esp32_sing.cc` lines 541-553:
if `is_downloading_` still holds the chunk is appended and
`buffer_size_` grows by its length (then `notify_one`); if cancellation
happened during the wait the chunk is freed without enqueuing. -/
def pushChunk (s : BufferState) (c : SingAudioChunk) : BufferState :=
  if s.is_downloading then
    { s with audio_buffer := s.audio_buffer ++ [c],
             buffer_size := s.buffer_size + c.size }
  else s

/-- Predicate of the consumer's empty-queue wait, `esp32_sing.cc`
line 650: wake when the queue is non-empty or the producer stopped. -/
def popWaitPredicate (s : BufferState) : Bool :=
  !s.audio_buffer.isEmpty || !s.is_downloading

/-- Outcome of one consumer fetch attempt (lines 642-657). -/
inductive PopResult where
  | eos
  | wouldBlock
  | popped (c : SingAudioChunk)
deriving DecidableEq

/-- Result of one consumer fetch attempt: the outcome, the state after
it, and whether `buffer_cv_.notify_one()` was issued. -/
structure PopStep where
  result : PopResult
  state : BufferState
  wakeOne : Bool
deriving DecidableEq

/-- Consumer fetch, `esp32_sing.cc` lines 642-657: on an empty queue
with the producer finished it breaks out immediately (end of stream);
on an empty queue with the producer active it waits on
`popWaitPredicate`; otherwise it removes the front chunk, subtracts its
length from `buffer_size_`, and wakes one waiter. -/
def popChunk (s : BufferState) : PopStep :=
  match s.audio_buffer with
  | [] =>
    if s.is_downloading then ⟨.wouldBlock, s, false⟩ else ⟨.eos, s, false⟩
  | c :: rest =>
    ⟨.popped c,
     { s with audio_buffer := rest, buffer_size := s.buffer_size - c.size },
     true⟩

/-- `Esp32Sing::ClearAudioBuffer`, `esp32_sing.cc` lines 159-167: frees
every resident chunk and resets `buffer_size_` to zero. -/
def clearAudioBuffer (s : BufferState) : BufferState :=
  { s with audio_buffer := [], buffer_size := 0 }

/-- One observable operation on the shared queue. -/
inductive QueueOp where
  | push (c : SingAudioChunk)
  | pop
  | clear
deriving DecidableEq

/-- Apply one queue operation to the shared state. -/
def applyOp (s : BufferState) : QueueOp → BufferState
  | .push c => pushChunk s c
  | .pop => (popChunk s).state
  | .clear => clearAudioBuffer s

/-- Apply a whole sequence of queue operations, front first. -/
def applyOps (s : BufferState) (ops : List QueueOp) : BufferState :=
  ops.foldl applyOp s

/-- Predicate of the consumer's priming wait, `esp32_sing.cc` line 603:
`buffer_size_ >= MIN_BUFFER_SIZE || (!is_downloading_ && !audio_buffer_.empty())`. -/
def primingPredicate (s : BufferState) : Bool :=
  decide (MIN_BUFFER_SIZE ≤ s.buffer_size) ||
    (!s.is_downloading && !s.audio_buffer.isEmpty)

/-- `Esp32Sing::StopStreaming`, `esp32_sing.cc` lines 360-383, acting on
the shared queue state: if both run flags are already false it returns
`true` at once; otherwise it clears both flags, wakes all waiters, and
joins the two tasks.  Neither the download task's exit path (lines
556-581 outside the error-cleanup branches) nor the play task's exit
path (lines 824-835) touches `audio_buffer_`/`buffer_size_`, and
`StopStreaming` itself never calls `ClearAudioBuffer`, so the join is a
no-op on the queue here. -/
def stopStreaming (s : BufferState) : Bool × BufferState :=
  if !s.is_playing && !s.is_downloading then (true, s)
  else (true, { s with is_downloading := false, is_playing := false })

/-- Producer-side session state observable by the status-handling code:
the shared queue state, the lyric-task flag, and counters of the two
externally visible effects (feedback tones played, requests to return
the device to listening). -/
structure ProducerSessionState where
  buf : BufferState
  is_lyric_running : Bool
  tones_played : Nat
  listening_requests : Nat
deriving DecidableEq

/-- What the producer does with a response status. -/
inductive StatusAction where
  | proceed
  | notifyAndResume
  | silentCleanup
deriving DecidableEq

/-- Status classification of `esp32_sing.cc` lines 456-508: 404 first,
then every status other than 200/206, else proceed to streaming. -/
def classifyStatus (status : Int) : StatusAction :=
  if status = 404 then .notifyAndResume
  else if status ≠ 200 ∧ status ≠ 206 then .silentCleanup
  else .proceed

/-- How the status handling leaves the producer thread: proceeding to
the streaming loop, returned from the fatal-cleanup branch, or blocked
forever inside it (with the session state observable at that moment). -/
inductive StatusOutcome where
  | proceed (s : ProducerSessionState)
  | returned (s : ProducerSessionState)
  | blocked (s : ProducerSessionState)
deriving DecidableEq

/-- `Esp32Sing::ClearAudioBuffer` as a mutex-aware action: its body
(lines 159-167) begins by acquiring `buffer_mutex_` — a non-recursive
`std::mutex` (`esp32_sing.h` line 109).  `held` says whether the
calling thread already owns the mutex; if it does, the second acquire
never returns (self-deadlock), and none of the body runs (`none`). -/
def clearAudioBufferAction (held : Bool) (s : ProducerSessionState) :
    Option ProducerSessionState :=
  if held then none
  else some { s with buf := clearAudioBuffer s.buf }

/-- The fatal-status branch of `esp32_sing.cc` lines 457-483 (404,
`notify = true`) and 484-507 (other failures, `notify = false`): close,
`ResetSampleRate`, clear both run flags, then take
`std::lock_guard lock(buffer_mutex_)` (lines 467/494), `notify_all`,
and call `ClearAudioBuffer()` (lines 469/496) — which re-acquires the
mutex this thread now holds, so execution blocks there.  The remainder
(stop the lyric task, and for 404 `PlaySound` plus `StartListening`,
lines 471-482/498-504) is written out as the `some` continuation but is
unreachable. -/
def fatalStatusCleanup (notify : Bool) (s : ProducerSessionState) :
    StatusOutcome :=
  let s1 := { s with buf := { s.buf with is_downloading := false,
                                         is_playing := false } }
  match clearAudioBufferAction true s1 with
  | none => .blocked s1
  | some s2 =>
    let s3 := { s2 with is_lyric_running := false }
    if notify then
      .returned { s3 with tones_played := s3.tones_played + 1,
                          listening_requests := s3.listening_requests + 1 }
    else .returned s3

/-- Effect of the status handling of `esp32_sing.cc` lines 456-508 on
the session state: 200/206 proceed to streaming; 404 and every other
non-2xx status enter the fatal cleanup, which self-deadlocks inside
`ClearAudioBuffer` (see `fatalStatusCleanup`). -/
def handleStatus (status : Int) (s : ProducerSessionState) :
    StatusOutcome :=
  match classifyStatus status with
  | .proceed => .proceed s
  | .notifyAndResume => fatalStatusCleanup true s
  | .silentCleanup => fatalStatusCleanup false s

/-- Transport-open phase of the producer, `esp32_sing.cc` lines 441-453
(the POST branch at 419-428 is identical): `openResult n` is the result
of the n-th `http->Open` call of the session.  Returns the number of
open calls made and whether the session proceeds. -/
def openWithRetry (openResult : Nat → Bool) : Nat × Bool :=
  if openResult 0 then (1, true)
  else if openResult 1 then (2, true)
  else (2, false)

/-- Effect of the open phase on the shared state: on double failure the
producer clears `is_downloading_` and returns (no further retry, no
full-session retry); on success it proceeds to response handling. -/
def producerOpenPhase (openResult : Nat → Bool) (s : BufferState) :
    BufferState × Bool :=
  if (openWithRetry openResult).2 then (s, true)
  else ({ s with is_downloading := false }, false)

/-- Byte of a buffer at an index (reads past the end are 0; the source
never performs them on the paths modelled here). -/
def byteAt (d : List Nat) (i : Nat) : Nat := d.getD i 0

/-- `Esp32Sing::SkipId3Tag`, `esp32_sing.cc` lines 842-847: for a buffer
of at least 10 bytes starting with the bytes of `ID3` (73, 68, 51), the
skip is 10 plus the 28-bit synchsafe big-endian integer assembled from
the low 7 bits of bytes 6..9; otherwise 0. -/
def skipId3Tag (d : List Nat) (size : Nat) : Nat :=
  if size < 10 then 0
  else if byteAt d 0 = 73 ∧ byteAt d 1 = 68 ∧ byteAt d 2 = 51 then
    10 + (((byteAt d 6 &&& 127) <<< 21) ||| ((byteAt d 7 &&& 127) <<< 14) |||
          ((byteAt d 8 &&& 127) <<< 7) ||| (byteAt d 9 &&& 127))
  else 0

/-- Result of the consumer's one-shot ID3 handling. -/
structure Id3Step where
  read_offset : Nat
  bytes_left : Nat
  id3_processed : Bool
deriving DecidableEq

/-- Consumer-side ID3 gate, `esp32_sing.cc` lines 714-721: only when
the tag has not been processed, WAV mode is off, and at least 10 bytes
are buffered does it compute the skip; a positive skip advances the
read pointer and shrinks `bytes_left`; the processed flag is then set
regardless, so the skip happens at most once per session. -/
def id3Step (id3_processed wav_mode : Bool) (window : List Nat)
    (bytes_left : Nat) : Id3Step :=
  if id3_processed = false ∧ wav_mode = false ∧ 10 ≤ bytes_left then
    let skip := skipId3Tag window bytes_left
    if 0 < skip then ⟨skip, bytes_left - skip, true⟩
    else ⟨0, bytes_left, true⟩
  else ⟨0, bytes_left, id3_processed⟩

/-- WAV parse state fields of `Esp32Sing` (`esp32_sing.h` lines 118-123). -/
structure WavState where
  wav_mode : Bool
  wav_header_parsed : Bool
  wav_channels : Nat
  wav_sample_rate : Nat
  wav_bits_per_sample : Nat
deriving DecidableEq

/-- Default WAV parse state, as reset by `StartStreaming` (lines 281-285). -/
def initWavState : WavState :=
  { wav_mode := false, wav_header_parsed := false, wav_channels := 1,
    wav_sample_rate := 16000, wav_bits_per_sample := 16 }

/-- Controller-level state: the shared queue state, the WAV parse
state, the current URL, and counters of producer/consumer task starts. -/
structure ControllerState where
  buf : BufferState
  wav : WavState
  current_stream_url : String
  producer_tasks : Nat
  consumer_tasks : Nat
deriving DecidableEq

/-- Uppercase hex digit of a value below 16 (`snprintf` with `%02X`). -/
def hexDigit (n : Nat) : Char :=
  if n < 10 then Char.ofNat (48 + n) else Char.ofNat (55 + n)

/-- Percent-encoding of one byte-sized character, `url_encode_simple`
(`esp32_sing.cc` lines 86-105): unreserved characters pass through,
space becomes `%20`, a literal plus becomes `%2B`, everything else
`%XX`. -/
def encodeChar (c : Char) : List Char :=
  if ('A' ≤ c ∧ c ≤ 'Z') ∨ ('a' ≤ c ∧ c ≤ 'z') ∨ ('0' ≤ c ∧ c ≤ '9') ∨
      c = '-' ∨ c = '_' ∨ c = '.' ∨ c = '~' then [c]
  else if c = ' ' then ['%', '2', '0']
  else if c = '+' then ['%', '2', 'B']
  else ['%', hexDigit (c.toNat / 16 % 16), hexDigit (c.toNat % 16)]

/-- `url_encode_simple` over a whole string. -/
def url_encode_simple (str : String) : String :=
  String.mk (str.data.flatMap encodeChar)

/-- Default `base_host_` (`esp32_sing.h` line 78). -/
def base_host : String := "http://8.134.249.85:18080"

/-- Session-start body shared by the non-empty branch of
`StartStreaming` (lines 236-302): cancel the previous session (flags
false, waiters woken, bounded join), `ClearAudioBuffer`, reset the WAV
parse state, record the URL, set both flags and start one producer and
one consumer task. -/
def startStreamingBody (music_url : String) (c : ControllerState) :
    ControllerState :=
  { buf := { audio_buffer := [], buffer_size := 0,
             is_downloading := true, is_playing := true },
    wav := initWavState,
    current_stream_url := music_url,
    producer_tasks := c.producer_tasks + 1,
    consumer_tasks := c.consumer_tasks + 1 }

/-- `Esp32Sing::StartStreaming`, lines 230-303: an empty URL is
rejected before anything else happens. -/
def startStreaming (music_url : String) (c : ControllerState) :
    Bool × ControllerState :=
  if music_url = "" then (false, c)
  else (true, startStreamingBody music_url c)

/-- Session-start body of `StartStreamingById` (lines 311-357): same as
`startStreamingBody` except that the WAV parse state is NOT reset
there. -/
def startStreamingByIdBody (_song_id : String) (c : ControllerState) :
    ControllerState :=
  { c with buf := { audio_buffer := [], buffer_size := 0,
                    is_downloading := true, is_playing := true },
           producer_tasks := c.producer_tasks + 1,
           consumer_tasks := c.consumer_tasks + 1 }

/-- `Esp32Sing::StartStreamingById`, lines 305-358: an empty song id is
rejected before anything else happens. -/
def startStreamingById (song_id : String) (c : ControllerState) :
    Bool × ControllerState :=
  if song_id = "" then (false, c)
  else (true, startStreamingByIdBody song_id c)

/-- Raw query text built by `Download` (lines 202-209): artist plus
song joined by a literal `+`, or whichever of the two is non-empty. -/
def downloadRawQuery (song_name artist_name : String) : String :=
  if artist_name ≠ "" ∧ song_name ≠ "" then artist_name ++ "+" ++ song_name
  else if song_name ≠ "" then song_name
  else artist_name

/-- `Esp32Sing::Download`, lines 191-224: both names empty is rejected
immediately; otherwise the GET query URL is built and handed to
`StartStreaming`. -/
def download (song_name artist_name : String) (c : ControllerState) :
    Bool × ControllerState :=
  if song_name = "" ∧ artist_name = "" then (false, c)
  else
    startStreaming
      (base_host ++ "/stream?raw_query=" ++
        url_encode_simple (downloadRawQuery song_name artist_name)) c

/-- Little-endian 16-bit read, as by the `uint16_t` loads. -/
def le16 (b0 b1 : Nat) : Nat := b0 + b1 * 256

/-- Little-endian 32-bit read, as by the `uint32_t` loads. -/
def le32nat (b0 b1 b2 b3 : Nat) : Nat :=
  b0 + b1 * 256 + b2 * 65536 + b3 * 16777216

/-- Four consecutive bytes at a position, as compared by `memcmp(.,.,4)`. -/
def tagAt (d : List Nat) (p : Nat) : List Nat :=
  [byteAt d p, byteAt d (p + 1), byteAt d (p + 2), byteAt d (p + 3)]

/-- Bytes of the ASCII tag `RIFF`. -/
def riffTag : List Nat := [82, 73, 70, 70]

/-- Bytes of the ASCII tag `WAVE`. -/
def waveTag : List Nat := [87, 65, 86, 69]

/-- Bytes of the ASCII tag `fmt` followed by a space. -/
def fmtTag : List Nat := [102, 109, 116, 32]

/-- Bytes of the ASCII tag `data`. -/
def dataTag : List Nat := [100, 97, 116, 97]

/-- The sub-chunk scan of `esp32_sing.cc` lines 665-698: while
`pos + 8 <= chunk.size`, read the 4-byte little-endian sub-chunk length
at `pos + 4`; on an `fmt ` tag with 16 more bytes in range, load channel
count (`pos + 10`), sample rate (`pos + 12`) and bits per sample
(`pos + 22`); on a `data` tag, shift the remaining payload to the front
of the buffer (`memmove`), shrink `chunk.size` to that remainder, mark
the header parsed and disable the ID3 path; then advance `pos` by
8 plus the sub-chunk length. -/
def wavScanLoop (d : List Nat) (sz pos : Nat) (ws : WavState) (id3 : Bool) :
    List Nat × Nat × WavState × Bool :=
  if h : pos + 8 ≤ sz then
    let csize := le32nat (byteAt d (pos + 4)) (byteAt d (pos + 5))
      (byteAt d (pos + 6)) (byteAt d (pos + 7))
    let ws1 :=
      if tagAt d pos = fmtTag ∧ pos + 8 + 16 ≤ sz then
        { ws with
            wav_channels := le16 (byteAt d (pos + 10)) (byteAt d (pos + 11)),
            wav_sample_rate := le32nat (byteAt d (pos + 12)) (byteAt d (pos + 13))
              (byteAt d (pos + 14)) (byteAt d (pos + 15)),
            wav_bits_per_sample := le16 (byteAt d (pos + 22)) (byteAt d (pos + 23)) }
      else ws
    if tagAt d pos = dataTag then
      let remain := if pos + 8 < sz then sz - (pos + 8) else 0
      wavScanLoop ((d.drop (pos + 8)).take remain) remain (pos + 8 + csize)
        { ws1 with wav_header_parsed := true } true
    else
      wavScanLoop d sz (pos + 8 + csize) ws1 id3
  else (d, sz, ws, id3)
termination_by sz - pos
decreasing_by
  · split <;> omega
  · omega

/-- First-chunk format detection, `esp32_sing.cc` lines 660-664: only
while the header is unparsed, and only when the chunk holds at least 44
bytes starting with `RIFF` and carrying `WAVE` at offset 8, does the
player enter WAV mode and run the sub-chunk scan from offset 12. -/
def detectAndParse (d : List Nat) (ws : WavState) (id3 : Bool) :
    List Nat × Nat × WavState × Bool :=
  if ws.wav_header_parsed then (d, d.length, ws, id3)
  else if 44 ≤ d.length ∧ tagAt d 0 = riffTag ∧ tagAt d 8 = waveTag then
    wavScanLoop d d.length 12 { ws with wav_mode := true } id3
  else (d, d.length, ws, id3)

/-- Two's-complement reading of a 16-bit little-endian load, as done by
interpreting the buffer as `int16_t`. -/
def toInt16 (n : Nat) : Int :=
  if n % 65536 < 32768 then ((n % 65536 : Nat) : Int)
  else ((n % 65536 : Nat) : Int) - 65536

/-- The i-th signed 16-bit sample of a byte buffer
(`int16_t* pcm16 = (int16_t*)read_ptr; pcm16[i]`). -/
def sampleAt (d : List Nat) (i : Nat) : Int :=
  toInt16 (le16 (byteAt d (2 * i)) (byteAt d (2 * i + 1)))

/-- Wrap-around of the C cast `(int16_t)` applied to an `int` value. -/
def wrapInt16 (x : Int) : Int := (x + 32768) % 65536 - 32768

/-- A decoded packet handed to the sink (`AudioStreamPacket`): sample
rate, nominal frame duration, and the mono 16-bit samples of the
payload (the C++ payload stores each sample as 2 bytes). -/
structure AudioStreamPacket where
  sample_rate : Nat
  frame_duration : Nat
  payload : List Int
deriving DecidableEq

/-- Copy of a popped chunk into the 8 KiB rolling input window,
`esp32_sing.cc` lines 706-712: leftover bytes are compacted to the
front, then `min(chunk.size, 8192 - bytes_left)` bytes of the chunk are
appended. -/
def copyIntoWindow (window : List Nat) (bytes_left : Nat)
    (chunkData : List Nat) : List Nat × Nat :=
  let copy_size := min chunkData.length (8192 - bytes_left)
  (window.take bytes_left ++ chunkData.take copy_size,
   bytes_left + copy_size)

/-- WAV playback branch, `esp32_sing.cc` lines 726-759 with
`bytes_left > 0`: reinterpret the window as 16-bit samples
(`sample_count = bytes_left / 2`); with 2 channels, average each
adjacent left/right pair with C `int` division (truncating toward zero,
then cast back to `int16_t`) into `sample_count / 2` mono samples,
otherwise pass the samples through; emit one packet at the detected
sample rate with `frame_duration = 60` and consume the whole window
(`bytes_left = 0`). -/
def wavEmitPacket (ws : WavState) (buf : List Nat) (bytes_left : Nat) :
    AudioStreamPacket × Nat :=
  let sample_count := bytes_left / 2
  let mono : List Int :=
    if ws.wav_channels = 2 then
      (List.range (sample_count / 2)).map fun i =>
        wrapInt16 (Int.tdiv (sampleAt buf (2 * i) + sampleAt buf (2 * i + 1)) 2)
    else (List.range sample_count).map fun i => sampleAt buf i
  ({ sample_rate := ws.wav_sample_rate, frame_duration := 60,
     payload := mono }, 0)

/-- Little-endian byte encoding of a 32-bit value. -/
def le32bytes (n : Nat) : List Nat :=
  [n % 256, n / 256 % 256, n / 65536 % 256, n / 16777216 % 256]

/-- Canonical 44-byte WAV header for stereo 16-bit PCM at 16000 Hz with
a data sub-chunk of `dataLen` bytes: `RIFF` + riff size + `WAVE`, an
`fmt ` sub-chunk of 16 bytes (PCM format 1, 2 channels, rate 16000,
byte rate 64000, block align 4, 16 bits per sample), then `data` +
`dataLen`. -/
def canonicalWavHeader (dataLen : Nat) : List Nat :=
  riffTag ++ le32bytes (36 + dataLen) ++ waveTag ++
  fmtTag ++ le32bytes 16 ++
  [1, 0, 2, 0] ++ le32bytes 16000 ++ le32bytes 64000 ++ [4, 0, 16, 0] ++
  dataTag ++ le32bytes dataLen

/-- A session's first buffer: the canonical 44-byte stereo 16-bit
16000 Hz WAV header followed by the PCM payload. -/
def wavChunk (pcm : List Nat) : List Nat :=
  canonicalWavHeader pcm.length ++ pcm

/-! ## Theorems -/

theorem pushChunk_invariant {s : BufferState} (h : bufferInvariant s)
    (c : SingAudioChunk) : bufferInvariant (pushChunk s c) := by
  unfold bufferInvariant pushChunk at *
  split <;> simp_all

theorem popChunk_invariant {s : BufferState} (h : bufferInvariant s) :
    bufferInvariant (popChunk s).state := by
  unfold bufferInvariant popChunk at *
  split
  · split <;> simpa
  · rename_i c rest heq
    simp only [heq, List.map_cons, List.sum_cons] at h ⊢
    omega

theorem clearAudioBuffer_invariant (s : BufferState) :
    bufferInvariant (clearAudioBuffer s) := by
  simp [bufferInvariant, clearAudioBuffer]

theorem applyOp_invariant {s : BufferState} (h : bufferInvariant s)
    (op : QueueOp) : bufferInvariant (applyOp s op) := by
  cases op with
  | push c => exact pushChunk_invariant h c
  | pop => exact popChunk_invariant h
  | clear => exact clearAudioBuffer_invariant s

/-- Claim C1: for every sequence of push, pop, and clear operations on
the bounded chunk queue, the tracked aggregate byte count
`buffer_size_` equals the sum of the lengths of the resident chunks at
every observable point (hence, being an exact `Nat`, it is never
negative and the pop subtraction never underflows: the front chunk's
length never exceeds the aggregate). -/
theorem c1_aggregate_size_invariant (s : BufferState) (ops : List QueueOp)
    (h : bufferInvariant s) :
    bufferInvariant (applyOps s ops) ∧
    (∀ c rest, (applyOps s ops).audio_buffer = c :: rest →
      c.size ≤ (applyOps s ops).buffer_size) := by
  have hinv : bufferInvariant (applyOps s ops) := by
    induction ops generalizing s with
    | nil => exact h
    | cons op ops ih => exact ih _ (applyOp_invariant h op)
  refine ⟨hinv, fun c rest hc => ?_⟩
  unfold bufferInvariant at hinv
  rw [hinv, hc]
  simp

/-- Witness for C1: a concrete push/push/pop/clear run from a concrete
invariant-satisfying state. -/
theorem c1_aggregate_size_invariant_witness :
    bufferInvariant ⟨[⟨[1, 2]⟩], 2, true, true⟩ ∧
    (bufferInvariant
        (applyOps ⟨[⟨[1, 2]⟩], 2, true, true⟩
          [.push ⟨[7, 7, 7]⟩, .pop, .push ⟨[9]⟩, .clear, .pop]) ∧
      ∀ c rest,
        (applyOps ⟨[⟨[1, 2]⟩], 2, true, true⟩
            [.push ⟨[7, 7, 7]⟩, .pop, .push ⟨[9]⟩, .clear, .pop]).audio_buffer =
          c :: rest →
        c.size ≤
          (applyOps ⟨[⟨[1, 2]⟩], 2, true, true⟩
              [.push ⟨[7, 7, 7]⟩, .pop, .push ⟨[9]⟩, .clear, .pop]).buffer_size) :=
  ⟨by decide,
   c1_aggregate_size_invariant ⟨[⟨[1, 2]⟩], 2, true, true⟩
     [.push ⟨[7, 7, 7]⟩, .pop, .push ⟨[9]⟩, .clear, .pop] (by decide)⟩

/-- Claim C3: when the producer flag is false and the queue is empty the
consumer's fetch reports end-of-stream immediately without waiting; when
the queue is empty with the producer active it would block, and its wake
predicate is exactly "non-empty or producer stopped" (false in that
state); otherwise it removes the front chunk (strict FIFO), decreases
the aggregate size by that chunk's length, and wakes one waiter. -/
theorem c3_pop_semantics (s : BufferState) :
    (s.audio_buffer = [] → s.is_downloading = false →
      popChunk s = ⟨.eos, s, false⟩) ∧
    (s.audio_buffer = [] → s.is_downloading = true →
      popChunk s = ⟨.wouldBlock, s, false⟩ ∧ popWaitPredicate s = false) ∧
    (∀ c rest, s.audio_buffer = c :: rest →
      popChunk s =
        ⟨.popped c,
         { s with audio_buffer := rest, buffer_size := s.buffer_size - c.size },
         true⟩) := by
  refine ⟨fun he hd => ?_, fun he hd => ⟨?_, ?_⟩, fun c rest hc => ?_⟩
  · unfold popChunk
    split
    · simp [hd]
    · simp_all
  · unfold popChunk
    split
    · simp [hd]
    · simp_all
  · simp [popWaitPredicate, he, hd]
  · unfold popChunk
    split
    · simp_all
    · rename_i c' rest' heq
      rw [hc] at heq
      cases heq
      rfl

/-- Witness for C3: the three branches at concrete states. -/
theorem c3_pop_semantics_witness :
    popChunk ⟨[], 0, false, false⟩ = ⟨.eos, ⟨[], 0, false, false⟩, false⟩ ∧
    (popChunk ⟨[], 0, true, true⟩ = ⟨.wouldBlock, ⟨[], 0, true, true⟩, false⟩ ∧
      popWaitPredicate ⟨[], 0, true, true⟩ = false) ∧
    popChunk ⟨[⟨[5, 6]⟩, ⟨[7]⟩], 3, true, true⟩ =
      ⟨.popped ⟨[5, 6]⟩, ⟨[⟨[7]⟩], 1, true, true⟩, true⟩ :=
  ⟨(c3_pop_semantics ⟨[], 0, false, false⟩).1 rfl rfl,
   (c3_pop_semantics ⟨[], 0, true, true⟩).2.1 rfl rfl,
   (c3_pop_semantics ⟨[⟨[5, 6]⟩, ⟨[7]⟩], 3, true, true⟩).2.2 ⟨[5, 6]⟩ [⟨[7]⟩] rfl⟩

/-- Counterexample to C2 as stated: with the producer already finished
(`is_downloading_ = false`) and the queue still empty, the priming-wait
predicate of `esp32_sing.cc` line 603 is still false, so the consumer
remains blocked there — it does not proceed merely because the producer
finished. -/
theorem c2_counterexample :
    (⟨[], 0, false, true⟩ : BufferState).is_downloading = false ∧
    (⟨[], 0, false, true⟩ : BufferState).audio_buffer = [] ∧
    primingPredicate ⟨[], 0, false, true⟩ = false := by decide

/-- Claim C2 (amended): the consumer proceeds past the priming wait
exactly when the aggregate buffered byte count has reached
`MIN_BUFFER_SIZE`, or the producer has finished AND the queue is
non-empty; with the producer finished and the queue empty it remains
blocked. -/
theorem c2_priming_predicate (s : BufferState) :
    primingPredicate s = true ↔
      (MIN_BUFFER_SIZE ≤ s.buffer_size ∨
        (s.is_downloading = false ∧ s.audio_buffer ≠ [])) := by
  unfold primingPredicate
  cases s.is_downloading <;> cases h : s.audio_buffer <;> simp [h]

/-- Witness for C2 (amended): the predicate applied at a concrete state. -/
theorem c2_priming_predicate_witness :
    primingPredicate ⟨[⟨[1]⟩], 1, false, true⟩ = true ↔
      (MIN_BUFFER_SIZE ≤ (1 : Nat) ∨
        ((false : Bool) = false ∧ ([⟨[1]⟩] : List SingAudioChunk) ≠ [])) :=
  c2_priming_predicate ⟨[⟨[1]⟩], 1, false, true⟩

/-- Counterexample to C4 as stated: stopping from a state with one
4-byte chunk resident leaves that chunk in the queue and the aggregate
at 4 — `StopStreaming` clears the flags but never drains the queue. -/
theorem c4_counterexample :
    (stopStreaming ⟨[⟨[0, 0, 0, 0]⟩], 4, true, true⟩).1 = true ∧
    (stopStreaming ⟨[⟨[0, 0, 0, 0]⟩], 4, true, true⟩).2.is_downloading = false ∧
    (stopStreaming ⟨[⟨[0, 0, 0, 0]⟩], 4, true, true⟩).2.is_playing = false ∧
    (stopStreaming ⟨[⟨[0, 0, 0, 0]⟩], 4, true, true⟩).2.audio_buffer ≠ [] ∧
    (stopStreaming ⟨[⟨[0, 0, 0, 0]⟩], 4, true, true⟩).2.buffer_size = 4 := by
  decide

/-- Claim C4 (amended): after every call to `StopStreaming` returns,
both run flags are false, but the queue is left exactly as it was (it is
not drained by Stop; residual chunks are only released by the next
session start or by the destructor). -/
theorem c4_stop_streaming (s : BufferState) :
    (stopStreaming s).1 = true ∧
    (stopStreaming s).2.is_downloading = false ∧
    (stopStreaming s).2.is_playing = false ∧
    (stopStreaming s).2.audio_buffer = s.audio_buffer ∧
    (stopStreaming s).2.buffer_size = s.buffer_size := by
  unfold stopStreaming
  split
  · rename_i h
    simp only [Bool.and_eq_true, Bool.not_eq_true'] at h
    simp [h.1, h.2]
  · simp

/-- Claim C8 (code bug): status 200 or 206 proceeds to streaming, as
claimed.  But the fatal branches never complete the claimed cleanup: on
404 — and on every other non-2xx status — the producer clears both run
flags, takes `buffer_mutex_`, and then self-deadlocks re-acquiring the
same non-recursive mutex inside `ClearAudioBuffer` (`esp32_sing.cc`
lines 467-469/494-496 and 160), so the cleanup never returns: the queue
is not drained, the lyric task is not stopped, no feedback tone is
played, and no listening request is made. -/
theorem c8_status_deadlock (status : Int) (s : ProducerSessionState) :
    ((status = 200 ∨ status = 206) → handleStatus status s = .proceed s) ∧
    (status = 404 →
      handleStatus status s =
        .blocked { s with buf := { s.buf with is_downloading := false,
                                              is_playing := false } }) ∧
    ((status < 200 ∨ 300 ≤ status) → status ≠ 404 →
      handleStatus status s =
        .blocked { s with buf := { s.buf with is_downloading := false,
                                              is_playing := false } }) ∧
    (∀ t, handleStatus status s ≠ .returned t) ∧
    (∀ s', handleStatus status s = .blocked s' →
      s'.buf.audio_buffer = s.buf.audio_buffer ∧
      s'.buf.buffer_size = s.buf.buffer_size ∧
      s'.is_lyric_running = s.is_lyric_running ∧
      s'.tones_played = s.tones_played ∧
      s'.listening_requests = s.listening_requests) := by
  have hfatal : ∀ b : Bool, fatalStatusCleanup b s =
      .blocked { s with buf := { s.buf with is_downloading := false,
                                            is_playing := false } } :=
    fun b => rfl
  have hout : handleStatus status s = .proceed s ∨
      handleStatus status s =
        .blocked { s with buf := { s.buf with is_downloading := false,
                                              is_playing := false } } := by
    unfold handleStatus
    cases hc : classifyStatus status
    · exact Or.inl rfl
    · exact Or.inr (hfatal true)
    · exact Or.inr (hfatal false)
  refine ⟨fun h => ?_, fun h => ?_, fun h h404 => ?_, fun t h => ?_,
    fun s' h => ?_⟩
  · have hc : classifyStatus status = .proceed := by
      rcases h with h | h <;> subst h <;> decide
    unfold handleStatus
    rw [hc]
  · subst h
    have hc : classifyStatus 404 = .notifyAndResume := by decide
    unfold handleStatus
    rw [hc]
    exact hfatal true
  · have hc : classifyStatus status = .silentCleanup := by
      unfold classifyStatus
      rw [if_neg h404, if_pos]
      constructor <;> intro he <;> subst he <;> omega
    unfold handleStatus
    rw [hc]
    exact hfatal false
  · rcases hout with h1 | h1 <;> rw [h1] at h <;> simp at h
  · rcases hout with h1 | h1 <;> rw [h1] at h
    · simp at h
    · simp only [StatusOutcome.blocked.injEq] at h
      subst h
      simp

/-- Witness for C8: concrete statuses 206 (proceeds), and 404 and 500,
both of which leave the producer blocked with only the two run flags
cleared — chunk still resident, lyric flag still set, no tone, no
listening request. -/
theorem c8_status_deadlock_witness :
    handleStatus 206 ⟨⟨[⟨[1]⟩], 1, true, true⟩, true, 0, 0⟩ =
      .proceed ⟨⟨[⟨[1]⟩], 1, true, true⟩, true, 0, 0⟩ ∧
    handleStatus 404 ⟨⟨[⟨[1]⟩], 1, true, true⟩, true, 0, 0⟩ =
      .blocked ⟨⟨[⟨[1]⟩], 1, false, false⟩, true, 0, 0⟩ ∧
    handleStatus 500 ⟨⟨[⟨[1]⟩], 1, true, true⟩, true, 2, 3⟩ =
      .blocked ⟨⟨[⟨[1]⟩], 1, false, false⟩, true, 2, 3⟩ :=
  ⟨(c8_status_deadlock 206 ⟨⟨[⟨[1]⟩], 1, true, true⟩, true, 0, 0⟩).1
     (Or.inr rfl),
   (c8_status_deadlock 404 ⟨⟨[⟨[1]⟩], 1, true, true⟩, true, 0, 0⟩).2.1 rfl,
   (c8_status_deadlock 500 ⟨⟨[⟨[1]⟩], 1, true, true⟩, true, 2, 3⟩).2.2.1
     (Or.inr (by norm_num)) (by norm_num)⟩

/-- Claim C9: a failed transport open is retried exactly once (at most
two open calls ever happen); a first success makes exactly one call, a
second-try success makes exactly two, and a second failure is fatal for
the session — the downloading flag is cleared and the producer exits
with no further retry. -/
theorem c9_open_retry (openResult : Nat → Bool) (s : BufferState) :
    (openWithRetry openResult).1 ≤ 2 ∧
    (openResult 0 = true → openWithRetry openResult = (1, true)) ∧
    (openResult 0 = false → openResult 1 = true →
      openWithRetry openResult = (2, true)) ∧
    (openResult 0 = false → openResult 1 = false →
      openWithRetry openResult = (2, false) ∧
      producerOpenPhase openResult s =
        ({ s with is_downloading := false }, false)) := by
  refine ⟨?_, fun h0 => ?_, fun h0 h1 => ?_, fun h0 h1 => ?_⟩
  · unfold openWithRetry
    split
    · omega
    · split <;> omega
  · simp [openWithRetry, h0]
  · simp [openWithRetry, h0, h1]
  · have hr : openWithRetry openResult = (2, false) := by
      simp [openWithRetry, h0, h1]
    exact ⟨hr, by simp [producerOpenPhase, hr]⟩

/-- Witness for C9: all three scenarios with concrete open oracles. -/
theorem c9_open_retry_witness :
    openWithRetry (fun _ => true) = (1, true) ∧
    openWithRetry (fun n => n = 1) = (2, true) ∧
    (openWithRetry (fun _ => false) = (2, false) ∧
      producerOpenPhase (fun _ => false) ⟨[], 0, true, true⟩ =
        (⟨[], 0, false, true⟩, false)) :=
  ⟨(c9_open_retry (fun _ => true) ⟨[], 0, true, true⟩).2.1 rfl,
   (c9_open_retry (fun n => n = 1) ⟨[], 0, true, true⟩).2.2.1 (by decide) (by decide),
   (c9_open_retry (fun _ => false) ⟨[], 0, true, true⟩).2.2.2 rfl rfl⟩

theorem synchsafe_or_eq_sum (a b c d : Nat) :
    ((a &&& 127) <<< 21) ||| ((b &&& 127) <<< 14) |||
      ((c &&& 127) <<< 7) ||| (d &&& 127) =
    a % 128 * 2097152 + b % 128 * 16384 + c % 128 * 128 + d % 128 := by
  have ha : a &&& 127 = a % 128 := by
    have := Nat.and_pow_two_sub_one_eq_mod a 7; norm_num at this; exact this
  have hb : b &&& 127 = b % 128 := by
    have := Nat.and_pow_two_sub_one_eq_mod b 7; norm_num at this; exact this
  have hc : c &&& 127 = c % 128 := by
    have := Nat.and_pow_two_sub_one_eq_mod c 7; norm_num at this; exact this
  have hd : d &&& 127 = d % 128 := by
    have := Nat.and_pow_two_sub_one_eq_mod d 7; norm_num at this; exact this
  rw [ha, hb, hc, hd, Nat.shiftLeft_eq, Nat.shiftLeft_eq, Nat.shiftLeft_eq]
  have hma : a % 128 < 128 := Nat.mod_lt _ (by norm_num)
  have hmb : b % 128 < 128 := Nat.mod_lt _ (by norm_num)
  have hmc : c % 128 < 128 := Nat.mod_lt _ (by norm_num)
  have hmd : d % 128 < 128 := Nat.mod_lt _ (by norm_num)
  have h1 : c % 128 * 2 ^ 7 ||| d % 128 = c % 128 * 128 + d % 128 := by
    have := Nat.mul_add_lt_is_or (i := 7) (show d % 128 < 2 ^ 7 by omega) (c % 128)
    rw [Nat.mul_comm] at this
    norm_num at this ⊢
    omega
  have h2 : b % 128 * 2 ^ 14 ||| (c % 128 * 128 + d % 128) =
      b % 128 * 16384 + (c % 128 * 128 + d % 128) := by
    have := Nat.mul_add_lt_is_or (i := 14)
      (show c % 128 * 128 + d % 128 < 2 ^ 14 by omega) (b % 128)
    rw [Nat.mul_comm] at this
    norm_num at this ⊢
    omega
  have h3 : a % 128 * 2 ^ 21 ||| (b % 128 * 16384 + (c % 128 * 128 + d % 128)) =
      a % 128 * 2097152 + (b % 128 * 16384 + (c % 128 * 128 + d % 128)) := by
    have := Nat.mul_add_lt_is_or (i := 21)
      (show b % 128 * 16384 + (c % 128 * 128 + d % 128) < 2 ^ 21 by omega) (a % 128)
    rw [Nat.mul_comm] at this
    norm_num at this ⊢
    omega
  rw [Nat.or_assoc, Nat.or_assoc, h1, h2, h3]
  omega

/-- Claim C7: for every buffer of at least 10 bytes beginning with the
ID3 signature, the computed skip equals 10 plus the 28-bit synchsafe
big-endian integer built from the low 7 bits of bytes 6..9; size bytes
0, 0, 2, 1 yield a skip of 267; and the consumer applies the skip at
most once per session (the gate is closed once the processed flag is
set, and the first qualifying pass sets it). -/
theorem c7_id3_skip (d : List Nat) (hlen : 10 ≤ d.length)
    (h0 : byteAt d 0 = 73) (h1 : byteAt d 1 = 68) (h2 : byteAt d 2 = 51) :
    skipId3Tag d d.length =
      10 + (byteAt d 6 % 128 * 2097152 + byteAt d 7 % 128 * 16384 +
            byteAt d 8 % 128 * 128 + byteAt d 9 % 128) ∧
    skipId3Tag [73, 68, 51, 4, 0, 0, 0, 0, 2, 1] 10 = 267 ∧
    (∀ wav window bl, id3Step true wav window bl = ⟨0, bl, true⟩) ∧
    (∀ window bl, 10 ≤ bl →
      (id3Step false false window bl).id3_processed = true) := by
  refine ⟨?_, by decide, fun wav window bl => ?_, fun window bl hbl => ?_⟩
  · unfold skipId3Tag
    rw [if_neg (by omega), if_pos ⟨h0, h1, h2⟩, synchsafe_or_eq_sum]
  · simp [id3Step]
  · unfold id3Step
    rw [if_pos ⟨rfl, rfl, hbl⟩]
    dsimp only
    split <;> rfl

/-- Witness for C7: the theorem applied to a concrete 11-byte buffer
with synchsafe size bytes 0, 0, 2, 1 (skip 267). -/
theorem c7_id3_skip_witness :
    skipId3Tag [73, 68, 51, 4, 0, 0, 0, 0, 2, 1, 9] 11 =
      10 + (0 % 128 * 2097152 + 0 % 128 * 16384 + 2 % 128 * 128 + 1 % 128) ∧
    skipId3Tag [73, 68, 51, 4, 0, 0, 0, 0, 2, 1] 10 = 267 ∧
    (∀ wav window bl, id3Step true wav window bl = ⟨0, bl, true⟩) ∧
    (∀ window bl, 10 ≤ bl →
      (id3Step false false window bl).id3_processed = true) :=
  c7_id3_skip [73, 68, 51, 4, 0, 0, 0, 0, 2, 1, 9] (by decide)
    (by decide) (by decide) (by decide)

/-- Claim C10: `StartStreaming` with an empty URL, `StartStreamingById`
with an empty id, and `Download` with both names empty all return false
immediately with the controller state untouched — the prior session is
not cancelled, no flag or queue is modified, and no producer or
consumer task is started. -/
theorem c10_empty_input_guards (c : ControllerState) :
    startStreaming "" c = (false, c) ∧
    startStreamingById "" c = (false, c) ∧
    download "" "" c = (false, c) := by
  refine ⟨?_, ?_, ?_⟩
  · simp [startStreaming]
  · simp [startStreamingById]
  · simp [download]

theorem wavScanLoop_exit (d : List Nat) (sz pos : Nat) (ws : WavState)
    (id3 : Bool) (h : ¬ pos + 8 ≤ sz) :
    wavScanLoop d sz pos ws id3 = (d, sz, ws, id3) := by
  rw [wavScanLoop]
  exact dif_neg h

theorem wavScanLoop_step (d : List Nat) (sz pos : Nat) (ws : WavState)
    (id3 : Bool) (h : pos + 8 ≤ sz) (hnd : tagAt d pos ≠ dataTag) :
    wavScanLoop d sz pos ws id3 =
      wavScanLoop d sz
        (pos + 8 + le32nat (byteAt d (pos + 4)) (byteAt d (pos + 5))
          (byteAt d (pos + 6)) (byteAt d (pos + 7)))
        (if tagAt d pos = fmtTag ∧ pos + 8 + 16 ≤ sz then
          { ws with
              wav_channels := le16 (byteAt d (pos + 10)) (byteAt d (pos + 11)),
              wav_sample_rate := le32nat (byteAt d (pos + 12)) (byteAt d (pos + 13))
                (byteAt d (pos + 14)) (byteAt d (pos + 15)),
              wav_bits_per_sample := le16 (byteAt d (pos + 22)) (byteAt d (pos + 23)) }
         else ws) id3 := by
  rw [wavScanLoop, dif_pos h]
  dsimp only
  rw [if_neg hnd]

theorem wavScanLoop_data (d : List Nat) (sz pos : Nat) (ws : WavState)
    (id3 : Bool) (h : pos + 8 ≤ sz) (hd : tagAt d pos = dataTag) :
    wavScanLoop d sz pos ws id3 =
      wavScanLoop
        ((d.drop (pos + 8)).take (if pos + 8 < sz then sz - (pos + 8) else 0))
        (if pos + 8 < sz then sz - (pos + 8) else 0)
        (pos + 8 + le32nat (byteAt d (pos + 4)) (byteAt d (pos + 5))
          (byteAt d (pos + 6)) (byteAt d (pos + 7)))
        { (if tagAt d pos = fmtTag ∧ pos + 8 + 16 ≤ sz then
            { ws with
                wav_channels := le16 (byteAt d (pos + 10)) (byteAt d (pos + 11)),
                wav_sample_rate := le32nat (byteAt d (pos + 12)) (byteAt d (pos + 13))
                  (byteAt d (pos + 14)) (byteAt d (pos + 15)),
                wav_bits_per_sample := le16 (byteAt d (pos + 22)) (byteAt d (pos + 23)) }
           else ws) with wav_header_parsed := true } true := by
  rw [wavScanLoop, dif_pos h]
  dsimp only
  rw [if_pos hd]

theorem wavScanLoop_wav_mode (n : Nat) :
    ∀ d sz pos ws id3, sz - pos ≤ n →
      (wavScanLoop d sz pos ws id3).2.2.1.wav_mode = ws.wav_mode := by
  induction n with
  | zero =>
    intro d sz pos ws id3 hb
    rw [wavScanLoop_exit d sz pos ws id3 (by omega)]
  | succ n ih =>
    intro d sz pos ws id3 hb
    by_cases hg : pos + 8 ≤ sz
    · by_cases hd : tagAt d pos = dataTag
      · rw [wavScanLoop_data d sz pos ws id3 hg hd]
        rw [ih _ _ _ _ _ (by split <;> omega)]
        split <;> rfl
      · rw [wavScanLoop_step d sz pos ws id3 hg hd]
        rw [ih _ _ _ _ _ (by omega)]
        split <;> rfl
    · rw [wavScanLoop_exit d sz pos ws id3 hg]

/-- Counterexample to C6 as stated: a 12-byte first buffer that fully
matches the canonical container signature (`RIFF` magic, 4 size bytes,
`WAVE` format tag) does NOT put the demuxer into WAV mode — the code at
`esp32_sing.cc` line 661 additionally requires `chunk.size >= 44`. -/
theorem c6_counterexample :
    12 ≤ ([82, 73, 70, 70, 0, 0, 0, 0, 87, 65, 86, 69] : List Nat).length ∧
    tagAt [82, 73, 70, 70, 0, 0, 0, 0, 87, 65, 86, 69] 0 = riffTag ∧
    tagAt [82, 73, 70, 70, 0, 0, 0, 0, 87, 65, 86, 69] 8 = waveTag ∧
    (detectAndParse [82, 73, 70, 70, 0, 0, 0, 0, 87, 65, 86, 69]
        initWavState false).2.2.1.wav_mode = false := by
  refine ⟨by decide, by decide, by decide, ?_⟩
  unfold detectAndParse
  rw [if_neg (by decide), if_neg (by decide)]
  rfl

/-- Claim C6 (amended): for every first buffer of at least 44 bytes
whose bytes 0..3 are the `RIFF` magic and bytes 8..11 the `WAVE` format
tag, the demuxer enters WAV mode (and stays in it) and scans sub-chunks
as (4-byte tag, 4-byte little-endian length) pairs starting at offset
12, reading channel count, sample rate and bits-per-sample from the
`fmt ` sub-chunk at fixed offsets; buffers of 12..43 signature-matching
bytes are not recognised. -/
theorem c6_wav_detection (d : List Nat) (ws : WavState) (id3 : Bool)
    (hp : ws.wav_header_parsed = false) (hlen : 44 ≤ d.length)
    (hr : tagAt d 0 = riffTag) (hw : tagAt d 8 = waveTag) :
    detectAndParse d ws id3 =
      wavScanLoop d d.length 12 { ws with wav_mode := true } id3 ∧
    (detectAndParse d ws id3).2.2.1.wav_mode = true := by
  have heq : detectAndParse d ws id3 =
      wavScanLoop d d.length 12 { ws with wav_mode := true } id3 := by
    unfold detectAndParse
    rw [if_neg (by simp [hp]), if_pos ⟨hlen, hr, hw⟩]
  refine ⟨heq, ?_⟩
  rw [heq]
  exact wavScanLoop_wav_mode (d.length - 12) d d.length 12
    { ws with wav_mode := true } id3 (by omega)

/-- Witness for C6 (amended): the 44-byte canonical header with an
empty data payload. -/
theorem c6_wav_detection_witness :
    detectAndParse (canonicalWavHeader 0) initWavState false =
      wavScanLoop (canonicalWavHeader 0) (canonicalWavHeader 0).length 12
        { initWavState with wav_mode := true } false ∧
    (detectAndParse (canonicalWavHeader 0) initWavState false).2.2.1.wav_mode =
      true :=
  c6_wav_detection (canonicalWavHeader 0) initWavState false (by decide)
    (by decide) (by decide) (by decide)

theorem canonicalWavHeader_length (n : Nat) :
    (canonicalWavHeader n).length = 44 := by
  simp [canonicalWavHeader, riffTag, waveTag, fmtTag, dataTag, le32bytes]

theorem le32bytes_value (n : Nat) (h : n < 4294967296) :
    le32nat (n % 256) (n / 256 % 256) (n / 65536 % 256)
      (n / 16777216 % 256) = n := by
  unfold le32nat
  omega

theorem wavChunk_length (pcm : List Nat) :
    (wavChunk pcm).length = 44 + pcm.length := by
  simp [wavChunk, canonicalWavHeader_length]

theorem wavChunk_drop_44 (pcm : List Nat) : (wavChunk pcm).drop 44 = pcm := by
  unfold wavChunk
  rw [show (44 : Nat) = (canonicalWavHeader pcm.length).length from
    (canonicalWavHeader_length pcm.length).symm]
  exact List.drop_left _ _

/-- Scanning the canonical header recognises the `fmt ` sub-chunk at
offset 12 (stereo, 16000 Hz, 16-bit), then the `data` sub-chunk at
offset 36, strips the 44 header bytes, marks the header parsed and
disables the ID3 path, leaving exactly the PCM payload. -/
theorem canonical_wav_parse (pcm : List Nat)
    (hlen : pcm.length < 4294967296) :
    detectAndParse (wavChunk pcm) initWavState false =
      (pcm, pcm.length, ⟨true, true, 2, 16000, 16⟩, true) := by
  have htag0 : tagAt (wavChunk pcm) 0 = riffTag := by
    simp [wavChunk, canonicalWavHeader, riffTag, waveTag, fmtTag, dataTag,
      le32bytes, byteAt, tagAt]
  have htag8 : tagAt (wavChunk pcm) 8 = waveTag := by
    simp [wavChunk, canonicalWavHeader, riffTag, waveTag, fmtTag, dataTag,
      le32bytes, byteAt, tagAt]
  have htag12 : tagAt (wavChunk pcm) 12 = fmtTag := by
    simp [wavChunk, canonicalWavHeader, riffTag, waveTag, fmtTag, dataTag,
      le32bytes, byteAt, tagAt]
  have htag36 : tagAt (wavChunk pcm) 36 = dataTag := by
    simp [wavChunk, canonicalWavHeader, riffTag, waveTag, fmtTag, dataTag,
      le32bytes, byteAt, tagAt]
  have hfmtsize : le32nat (byteAt (wavChunk pcm) (12 + 4))
      (byteAt (wavChunk pcm) (12 + 5)) (byteAt (wavChunk pcm) (12 + 6))
      (byteAt (wavChunk pcm) (12 + 7)) = 16 := by
    simp [wavChunk, canonicalWavHeader, riffTag, waveTag, fmtTag, dataTag,
      le32bytes, byteAt, le32nat]
  have hfmtrec : ({ (⟨true, false, 1, 16000, 16⟩ : WavState) with
      wav_channels := le16 (byteAt (wavChunk pcm) (12 + 10))
        (byteAt (wavChunk pcm) (12 + 11)),
      wav_sample_rate := le32nat (byteAt (wavChunk pcm) (12 + 12))
        (byteAt (wavChunk pcm) (12 + 13)) (byteAt (wavChunk pcm) (12 + 14))
        (byteAt (wavChunk pcm) (12 + 15)),
      wav_bits_per_sample := le16 (byteAt (wavChunk pcm) (12 + 22))
        (byteAt (wavChunk pcm) (12 + 23)) } : WavState) =
      ⟨true, false, 2, 16000, 16⟩ := by
    simp [wavChunk, canonicalWavHeader, riffTag, waveTag, fmtTag, dataTag,
      le32bytes, byteAt, le32nat, le16]
  have hdatasize : le32nat (byteAt (wavChunk pcm) (36 + 4))
      (byteAt (wavChunk pcm) (36 + 5)) (byteAt (wavChunk pcm) (36 + 6))
      (byteAt (wavChunk pcm) (36 + 7)) = pcm.length := by
    have e : le32nat (byteAt (wavChunk pcm) (36 + 4))
        (byteAt (wavChunk pcm) (36 + 5)) (byteAt (wavChunk pcm) (36 + 6))
        (byteAt (wavChunk pcm) (36 + 7)) =
        le32nat (pcm.length % 256) (pcm.length / 256 % 256)
          (pcm.length / 65536 % 256) (pcm.length / 16777216 % 256) := by
      simp [wavChunk, canonicalWavHeader, riffTag, waveTag, fmtTag, dataTag,
        le32bytes, byteAt, le32nat]
    rw [e]
    exact le32bytes_value pcm.length hlen
  unfold detectAndParse
  rw [if_neg (by decide), if_pos (⟨by rw [wavChunk_length]; omega, htag0, htag8⟩ :
    44 ≤ (wavChunk pcm).length ∧ tagAt (wavChunk pcm) 0 = riffTag ∧
      tagAt (wavChunk pcm) 8 = waveTag)]
  rw [wavChunk_length]
  rw [show ({ initWavState with wav_mode := true } : WavState) =
    ⟨true, false, 1, 16000, 16⟩ from rfl]
  rw [wavScanLoop_step (wavChunk pcm) (44 + pcm.length) 12
    ⟨true, false, 1, 16000, 16⟩ false (by omega)
    (by rw [htag12]; decide)]
  rw [if_pos (⟨htag12, by omega⟩ : tagAt (wavChunk pcm) 12 = fmtTag ∧
    12 + 8 + 16 ≤ 44 + pcm.length)]
  rw [hfmtsize, hfmtrec]
  rw [show (12 + 8 + 16 : Nat) = 36 from rfl]
  rw [wavScanLoop_data (wavChunk pcm) (44 + pcm.length) 36
    ⟨true, false, 2, 16000, 16⟩ false (by omega) htag36]
  rw [if_neg (show ¬(tagAt (wavChunk pcm) 36 = fmtTag ∧
      36 + 8 + 16 ≤ 44 + pcm.length) from by
    intro hcon
    rw [htag36] at hcon
    exact absurd hcon.1 (by decide))]
  rw [hdatasize]
  rw [show (if 36 + 8 < 44 + pcm.length then 44 + pcm.length - (36 + 8) else 0) =
    pcm.length from by split <;> omega]
  rw [show (36 + 8 : Nat) = 44 from rfl]
  rw [wavChunk_drop_44, List.take_length]
  rw [show 36 + 8 + pcm.length = 44 + pcm.length from by omega]
  rw [wavScanLoop_exit pcm pcm.length (44 + pcm.length)
    ⟨true, true, 2, 16000, 16⟩ true (by omega)]

theorem toInt16_range (n : Nat) : -32768 ≤ toInt16 n ∧ toInt16 n < 32768 := by
  unfold toInt16
  split <;> omega

theorem sampleAt_range (d : List Nat) (i : Nat) :
    -32768 ≤ sampleAt d i ∧ sampleAt d i < 32768 :=
  toInt16_range _

theorem wrapInt16_eq_self {x : Int} (h1 : -32768 ≤ x) (h2 : x < 32768) :
    wrapInt16 x = x := by
  unfold wrapInt16
  omega

theorem tdiv_two_range (s : Int) (h1 : -65536 ≤ s) (h2 : s ≤ 65534) :
    -32768 ≤ Int.tdiv s 2 ∧ Int.tdiv s 2 < 32768 := by
  cases s with
  | ofNat m =>
    rw [show Int.tdiv (Int.ofNat m) 2 = Int.ofNat (m / 2) from rfl,
      Int.ofNat_eq_coe]
    rw [Int.ofNat_eq_coe] at h2
    omega
  | negSucc m =>
    rw [show Int.tdiv (Int.negSucc m) 2 = -Int.ofNat ((m + 1) / 2) from rfl,
      Int.ofNat_eq_coe]
    rw [Int.negSucc_eq] at h1
    omega

theorem wrap_tdiv_avg (l r : Int) (hl1 : -32768 ≤ l) (hl2 : l < 32768)
    (hr1 : -32768 ≤ r) (hr2 : r < 32768) :
    wrapInt16 (Int.tdiv (l + r) 2) = Int.tdiv (l + r) 2 := by
  have h := tdiv_two_range (l + r) (by omega) (by omega)
  exact wrapInt16_eq_self h.1 h.2

/-- Claim C5: a first buffer made of the canonical 44-byte stereo
16-bit 16000 Hz WAV header followed by PCM data (within one 4096-byte
network read) parses to WAV mode with 2 channels at 16000 Hz, leaving
exactly the PCM bytes; after the copy into the decode window, the
emitted packet has sample rate 16000, exactly half as many mono samples
as the source has 16-bit values (one per left/right frame), each mono
sample the truncating average of one adjacent left/right pair, and the
whole window is consumed (`bytes_left` becomes 0, nothing retained). -/
theorem c5_wav_stereo_downmix (pcm : List Nat)
    (_hbytes : ∀ b ∈ pcm, b < 256) (hlen : pcm.length + 44 ≤ 4096) :
    detectAndParse (wavChunk pcm) initWavState false =
      (pcm, pcm.length, ⟨true, true, 2, 16000, 16⟩, true) ∧
    copyIntoWindow [] 0 pcm = (pcm, pcm.length) ∧
    (wavEmitPacket ⟨true, true, 2, 16000, 16⟩ pcm pcm.length).1.sample_rate =
      16000 ∧
    (wavEmitPacket ⟨true, true, 2, 16000, 16⟩ pcm
      pcm.length).1.payload.length = pcm.length / 2 / 2 ∧
    (∀ i, i < pcm.length / 2 / 2 →
      (wavEmitPacket ⟨true, true, 2, 16000, 16⟩ pcm
          pcm.length).1.payload.getD i 0 =
        Int.tdiv (sampleAt pcm (2 * i) + sampleAt pcm (2 * i + 1)) 2) ∧
    (wavEmitPacket ⟨true, true, 2, 16000, 16⟩ pcm pcm.length).2 = 0 := by
  refine ⟨canonical_wav_parse pcm (by omega), ?_, ?_, ?_, ?_, ?_⟩
  · unfold copyIntoWindow
    dsimp only
    rw [show min pcm.length (8192 - 0) = pcm.length from by omega]
    simp
  · rfl
  · simp [wavEmitPacket]
  · intro i hi
    unfold wavEmitPacket
    simp only [List.getD_eq_getElem?_getD, List.getElem?_map, List.getElem?_range,
      hi, if_pos]
    first
    | rw [Option.map_some, Option.getD_some]
    | rw [Option.map_some', Option.getD_some]
    exact wrap_tdiv_avg _ _ (sampleAt_range pcm (2 * i)).1
      (sampleAt_range pcm (2 * i)).2 (sampleAt_range pcm (2 * i + 1)).1
      (sampleAt_range pcm (2 * i + 1)).2
  · rfl

/-- Witness for C5: one stereo frame with left sample 1000 and right
sample -1000 (bytes 232, 3, 24, 252). -/
theorem c5_wav_stereo_downmix_witness :
    ((∀ b ∈ ([232, 3, 24, 252] : List Nat), b < 256) ∧
      ([232, 3, 24, 252] : List Nat).length + 44 ≤ 4096) ∧
    (detectAndParse (wavChunk [232, 3, 24, 252]) initWavState false =
        ([232, 3, 24, 252], 4, ⟨true, true, 2, 16000, 16⟩, true) ∧
      copyIntoWindow [] 0 [232, 3, 24, 252] = ([232, 3, 24, 252], 4) ∧
      (wavEmitPacket ⟨true, true, 2, 16000, 16⟩ [232, 3, 24, 252]
        4).1.sample_rate = 16000 ∧
      (wavEmitPacket ⟨true, true, 2, 16000, 16⟩ [232, 3, 24, 252]
        4).1.payload.length = 1 ∧
      (∀ i, i < 1 →
        (wavEmitPacket ⟨true, true, 2, 16000, 16⟩ [232, 3, 24, 252]
            4).1.payload.getD i 0 =
          Int.tdiv (sampleAt [232, 3, 24, 252] (2 * i) +
            sampleAt [232, 3, 24, 252] (2 * i + 1)) 2) ∧
      (wavEmitPacket ⟨true, true, 2, 16000, 16⟩ [232, 3, 24, 252] 4).2 = 0) :=
  ⟨⟨by decide, by decide⟩,
   c5_wav_stereo_downmix [232, 3, 24, 252] (by decide) (by decide)⟩
